import Mathlib

/-!
Verification development for `maniskill2_learn/env/wrappers.py`.

The module wraps a Gym-style robotics environment: `ExtendedEnv` normalizes
rewards, actions and float precision; `ManiSkill2_ObsWrapper` transforms
observations (state passthrough, point-cloud frame conversion, masking,
downsampling, goal-point injection) and optionally suppresses done flags.

Python/NumPy values are embedded shallowly: machine floats become exact
rationals (`ℚ`), NumPy arrays become Lean lists carrying an explicit dtype
tag where precision matters, dictionaries become association structures,
and fallible code (assertions, KeyError, `exit(0)`) returns
`Except`/`Option`, with `none`/`.error` meaning the Python process raised
or terminated and no value was returned.
-/

/-- NumPy floating dtypes that occur in the wrapped observations. -/
inductive FloatDT where
  | f16
  | f32
  | f64
deriving DecidableEq, Repr

mutual

/-- A Python/NumPy value as it appears in observations and info dicts:
float scalars and arrays carry their dtype; dicts are ordered key/value
sequences (Python dict insertion order). -/
inductive Val where
  | float (dt : FloatDT) (x : ℚ)
  | farr (dt : FloatDT) (xs : List ℚ)
  | int (n : ℤ)
  | bool (b : Bool)
  | str (s : String)
  | dict (fields : Fields)
deriving DecidableEq, Repr

/-- Ordered fields of a Python dict. -/
inductive Fields where
  | nil
  | cons (k : String) (v : Val) (rest : Fields)
deriving DecidableEq, Repr

end

mutual

/-- Modelled from the spec: `GDict.f64_to_f32` (in
`maniskill2_learn/utils/data`, not part of the sources): the
"Float64→float32 coercion applied uniformly to observations/info after
every reset/step" — every value of dtype float64 anywhere in the nested
structure is retagged float32; all other values are unchanged. -/
def Val.f64_to_f32 : Val → Val
  | .float .f64 x => .float .f32 x
  | .float dt x => .float dt x
  | .farr .f64 xs => .farr .f32 xs
  | .farr dt xs => .farr dt xs
  | .int n => .int n
  | .bool b => .bool b
  | .str s => .str s
  | .dict fs => .dict fs.f64_to_f32

/-- Pointwise `f64_to_f32` on dict fields. -/
def Fields.f64_to_f32 : Fields → Fields
  | .nil => .nil
  | .cons k v rest => .cons k v.f64_to_f32 rest.f64_to_f32

end

mutual

/-- True when some float scalar or array in the value has dtype float64. -/
def Val.hasF64 : Val → Bool
  | .float dt _ => dt = .f64
  | .farr dt _ => dt = .f64
  | .int _ => false
  | .bool _ => false
  | .str _ => false
  | .dict fs => fs.hasF64

/-- True when some value in the fields has dtype float64. -/
def Fields.hasF64 : Fields → Bool
  | .nil => false
  | .cons _ v rest => v.hasF64 || rest.hasF64

end

mutual

/-- True when every float scalar or array in the value has dtype float32. -/
def Val.allF32 : Val → Bool
  | .float dt _ => dt = .f32
  | .farr dt _ => dt = .f32
  | .int _ => true
  | .bool _ => true
  | .str _ => true
  | .dict fs => fs.allF32

/-- True when every float value in the fields has dtype float32. -/
def Fields.allF32 : Fields → Bool
  | .nil => true
  | .cons _ v rest => v.allF32 && rest.allF32

end

/-- Association lookup in dict fields (first match, like Python dicts,
whose keys are unique). -/
def Fields.lookup (k : String) : Fields → Option Val
  | .nil => none
  | .cons k' v rest => if k' = k then some v else rest.lookup k

/-- Appending a new key at the end, as Python dict assignment of a fresh
key does. -/
def Fields.append (k : String) (v : Val) : Fields → Fields
  | .nil => .cons k v .nil
  | .cons k' v' rest => .cons k' v' (rest.append k v)

/-- Key lookup on a value; `none` on non-dicts. -/
def Val.lookupKey (k : String) : Val → Option Val
  | .dict fs => fs.lookup k
  | _ => none

/-! ## ExtendedEnv (wrappers.py lines 50-156)

The wrapped environment's behaviour is abstracted as explicit inputs: the
observation the inner `reset` returns, and a function from the processed
action to the inner `step`'s `(obs, reward, done, info)` tuple.
-/

/-- A Python action value handed to `ExtendedEnv.step`: either a number
or a NumPy array (flattened; `reshape(-1)` makes the layout irrelevant). -/
inductive PyAction where
  | num (x : ℚ)
  | arr (xs : List ℚ)
deriving DecidableEq, Repr

/-- The action after `_process_action`: an integer index for discrete
spaces, otherwise the original value. -/
inductive ProcessedAction where
  | intAct (n : ℤ)
  | numAct (x : ℚ)
  | arrAct (xs : List ℚ)
deriving DecidableEq, Repr

/-- Python `int()` on a float: truncation toward zero. -/
def pyInt (q : ℚ) : ℤ :=
  if 0 ≤ q then q.floor else -((-q).floor)

/-- State of `ExtendedEnv` after `__init__` (lines 66-71): `is_discrete`
reflects the wrapped action space, `is_cost` is `-1` when `use_cost` else
`1`, and the stored `reward_scale` is the argument times `is_cost`. -/
structure ExtendedEnv where
  is_discrete : Bool
  is_cost : ℚ
  reward_scale : ℚ
deriving DecidableEq, Repr

/-- `ExtendedEnv.__init__` (lines 66-71): asserts `reward_scale > 0`,
then stores `is_cost = -1 if use_cost else 1` and
`reward_scale = reward_scale * is_cost`. An `AssertionError` is an
`Except.error`. -/
def ExtendedEnv.init (reward_scale : ℚ) (use_cost : Bool)
    (is_discrete : Bool) : Except String ExtendedEnv :=
  if 0 < reward_scale then
    let is_cost : ℚ := if use_cost then -1 else 1
    .ok { is_discrete := is_discrete, is_cost := is_cost,
          reward_scale := reward_scale * is_cost }
  else
    .error "Reward scale should be positive!"

/-- `ExtendedEnv._process_action` (lines 73-80): for a discrete action
space, a number is cast with `int()`, and an array must have exactly one
element (`assert action.size == 1`), which is cast with `int()`;
otherwise the action passes through. -/
def ExtendedEnv._process_action (e : ExtendedEnv) :
    PyAction → Except String ProcessedAction
  | .num x =>
    if e.is_discrete then .ok (.intAct (pyInt x)) else .ok (.numAct x)
  | .arr xs =>
    if e.is_discrete then
      match xs with
      | [x] => .ok (.intAct (pyInt x))
      | _ => .error "Dim of discrete action should be 1"
    else
      .ok (.arrAct xs)

/-- The `(obs, reward, done, info)` tuple of a Gym step. -/
structure StepResult where
  obs : Val
  reward : ℚ
  done : Bool
  info : Val
deriving DecidableEq, Repr

/-- Lines 90-91 of `ExtendedEnv.step`: when `info` is a dict and lacks
the key `TimeLimit.truncated`, set it to `False`; other infos and
existing entries are untouched. -/
def ensureTruncated : Val → Val
  | .dict fs =>
    if (fs.lookup "TimeLimit.truncated").isSome then .dict fs
    else .dict (fs.append "TimeLimit.truncated" (.bool false))
  | v => v

/-- `ExtendedEnv.reset` (lines 82-85): the wrapped observation with the
float64→float32 coercion applied. -/
def ExtendedEnv.reset (innerObs : Val) : Val :=
  innerObs.f64_to_f32

/-- `ExtendedEnv.step` (lines 87-93): process the action, step the
wrapped environment, default `TimeLimit.truncated`, coerce float64 to
float32 in obs and info, and scale the reward by the stored
`reward_scale`. The `np.float32(...)` cast is exact in this rational
model. -/
def ExtendedEnv.step (e : ExtendedEnv)
    (innerStep : ProcessedAction → StepResult) (action : PyAction) :
    Except String StepResult :=
  match e._process_action action with
  | .error msg => .error msg
  | .ok a =>
    let r := innerStep a
    let info := ensureTruncated r.info
    .ok { obs := r.obs.f64_to_f32,
          reward := r.reward * e.reward_scale,
          done := r.done,
          info := info.f64_to_f32 }

/-! ## Geometry: vectors, quaternions, poses

`sapien.core.Pose` is an external library type (position plus wxyz unit
quaternion). Modelled from the spec: "Pose: position + quaternion; used
only as an ephemeral transform" — standard rigid-transform semantics. -/

/-- A 3-vector of exact rationals. -/
structure Vec3 where
  x : ℚ
  y : ℚ
  z : ℚ
deriving DecidableEq, Repr

/-- Componentwise vector addition. -/
def Vec3.add (a b : Vec3) : Vec3 := ⟨a.x + b.x, a.y + b.y, a.z + b.z⟩

/-- Componentwise vector subtraction. -/
def Vec3.sub (a b : Vec3) : Vec3 := ⟨a.x - b.x, a.y - b.y, a.z - b.z⟩

/-- Scalar multiple of a vector. -/
def Vec3.smul (c : ℚ) (a : Vec3) : Vec3 := ⟨c * a.x, c * a.y, c * a.z⟩

/-- Cross product. -/
def Vec3.cross (a b : Vec3) : Vec3 :=
  ⟨a.y * b.z - a.z * b.y, a.z * b.x - a.x * b.z, a.x * b.y - a.y * b.x⟩

/-- A quaternion in the wxyz convention SAPIEN uses. -/
structure Quat where
  w : ℚ
  x : ℚ
  y : ℚ
  z : ℚ
deriving DecidableEq, Repr

/-- Quaternion (Hamilton) product. -/
def Quat.mul (a b : Quat) : Quat :=
  ⟨a.w * b.w - a.x * b.x - a.y * b.y - a.z * b.z,
   a.w * b.x + a.x * b.w + a.y * b.z - a.z * b.y,
   a.w * b.y - a.x * b.z + a.y * b.w + a.z * b.x,
   a.w * b.z + a.x * b.y - a.y * b.x + a.z * b.w⟩

/-- Quaternion conjugate; the inverse of a unit quaternion. -/
def Quat.conj (a : Quat) : Quat := ⟨a.w, -a.x, -a.y, -a.z⟩

/-- Rotation of a vector by a unit quaternion:
`v + 2 w (u × v) + 2 u × (u × v)` with `u` the imaginary part. -/
def Quat.rotate (q : Quat) (v : Vec3) : Vec3 :=
  let u : Vec3 := ⟨q.x, q.y, q.z⟩
  let t := Vec3.smul 2 (u.cross v)
  (v.add (Vec3.smul q.w t)).add (u.cross t)

/-- The 3x3 rotation matrix of a unit quaternion, as rows. -/
def Quat.toMatrix (q : Quat) : List (List ℚ) :=
  [[1 - 2 * (q.y * q.y + q.z * q.z), 2 * (q.x * q.y - q.z * q.w), 2 * (q.x * q.z + q.y * q.w)],
   [2 * (q.x * q.y + q.z * q.w), 1 - 2 * (q.x * q.x + q.z * q.z), 2 * (q.y * q.z - q.x * q.w)],
   [2 * (q.x * q.z - q.y * q.w), 2 * (q.y * q.z + q.x * q.w), 1 - 2 * (q.x * q.x + q.y * q.y)]]

/-- A rigid transform: position plus (unit) quaternion. -/
structure Pose where
  p : Vec3
  q : Quat
deriving DecidableEq, Repr

/-- `Pose.inv` of SAPIEN: conjugate rotation, inversely rotated negated
translation. -/
def Pose.inv (t : Pose) : Pose :=
  let qi := t.q.conj
  ⟨Vec3.smul (-1) (qi.rotate t.p), qi⟩

/-- Pose composition `Pose.__mul__` of SAPIEN: apply `b` then `a`. -/
def Pose.comp (a b : Pose) : Pose :=
  ⟨(a.q.rotate b.p).add a.p, a.q.mul b.q⟩

/-- `Pose.to_transformation_matrix`: the homogeneous 4x4 matrix, as rows. -/
def Pose.to_transformation_matrix (t : Pose) : List (List ℚ) :=
  match t.q.toMatrix with
  | [r0, r1, r2] =>
    [r0 ++ [t.p.x], r1 ++ [t.p.y], r2 ++ [t.p.z], [0, 0, 0, 1]]
  | _ => []

/-- A 7-float pose vector as the observations carry it: position then
wxyz quaternion (`pose[:3]`, `pose[3:]`). -/
structure PoseVec where
  px : ℚ
  py : ℚ
  pz : ℚ
  qw : ℚ
  qx : ℚ
  qy : ℚ
  qz : ℚ
deriving DecidableEq, Repr

/-- `Pose(p=pose[:3], q=pose[3:])`. -/
def PoseVec.toPose (v : PoseVec) : Pose :=
  ⟨⟨v.px, v.py, v.pz⟩, ⟨v.qw, v.qx, v.qy, v.qz⟩⟩

/-- The position part `pose[:3]`. -/
def PoseVec.pos (v : PoseVec) : Vec3 := ⟨v.px, v.py, v.pz⟩

/-- The flat 7-float list `[p, q]` (`np.hstack([pose.p, pose.q])`). -/
def Pose.toList (t : Pose) : List ℚ :=
  [t.p.x, t.p.y, t.p.z, t.q.w, t.q.x, t.q.y, t.q.z]

/-- Modelled from the spec: `apply_pose_to_point` from
`maniskill2_learn/utils/lib3d/mani_skill2_contrib` (not part of the
sources): converts a point "to a target reference frame" — rotate by the
pose's quaternion and translate by its position. -/
def apply_pose_to_point (pose : Pose) (v : Vec3) : Vec3 :=
  (pose.q.rotate v).add pose.p

/-- Modelled from the spec: `apply_pose_to_points` — `apply_pose_to_point`
applied to every point of the cloud. -/
def apply_pose_to_points (pose : Pose) (vs : List Vec3) : List Vec3 :=
  vs.map (apply_pose_to_point pose)

/-! ## ManiSkill2_ObsWrapper (wrappers.py lines 176-431)

The point-cloud observation branch (lines 271-415) is embedded over a
typed input mirroring the observation schema documented at lines 272-282.
The `rgbd` and `particles` branches are outside the scope of this
development; `ObsMode.otherMode` stands for an `obs_mode` string that is
none of `state`, `rgbd`, `pointcloud`, `particles`, for which line 427
returns the observation unchanged. -/

/-- The observation modes this development distinguishes. -/
inductive ObsMode where
  | state
  | pointcloud
  | otherMode
deriving DecidableEq, Repr

/-- Configuration of `ManiSkill2_ObsWrapper.__init__` (line 177).
`preprocessedPcd` models the test
`"PointCloudPreprocessObsWrapper" in self.env.__str__()` (line 309):
when true the wrapper skips its own downsampling. -/
structure ObsWrapperCfg where
  obs_mode : ObsMode
  n_points : ℕ
  n_goal_points : ℤ
  obs_frame : String
  ignore_dones : Bool
  preprocessedPcd : Bool
deriving DecidableEq, Repr

/-- The fields of a point-cloud observation that the branch reads, typed
after the schema documented at lines 272-282: the cloud carries `xyzw`
(points with a validity flag as last component) or `xyz`, plus per-point
`rgb` and optionally `robot_seg`; `agent` carries `base_pose`, `qpos`,
`qvel`; `extra` optionally carries the listed keys. `extraOthers` holds
the flattened values of every `extra` key outside the exclusion list of
lines 405-407 (including `gripper_pose` when present), in dict iteration
order, as consumed by the state-assembly loop of lines 404-412. -/
structure PcdInput where
  xyzw : Option (List (Vec3 × ℚ))
  xyz : Option (List Vec3)
  rgb : List Vec3
  robot_seg : Option (List ℚ)
  base_pose : PoseVec
  qpos : List ℚ
  qvel : List ℚ
  tcp_pose : Option PoseVec
  goal_pos : Option Vec3
  goal_pose : Option PoseVec
  gripper_pose : Option PoseVec
  joint_axis : Option Vec3
  link_pos : Option Vec3
  extraOthers : List (List ℚ)
deriving DecidableEq, Repr

/-- Lines 285-295: the pose `to_origin` that maps world coordinates into
the configured observation frame: the inverse of the base pose for
`base`/`world`, the inverse of `extra['tcp_pose']` for `ee`; any other
`obs_frame` prints and calls `exit(0)` (`none`). An `ee` frame without a
`tcp_pose` key raises `KeyError` (`none`). -/
def resolveFrame (cfg : ObsWrapperCfg) (p : PcdInput) : Option Pose :=
  if cfg.obs_frame = "base" ∨ cfg.obs_frame = "world" then
    some p.base_pose.toPose.inv
  else if cfg.obs_frame = "ee" then
    p.tcp_pose.map fun t => t.toPose.inv
  else
    none

/-- NumPy boolean-mask indexing `xs[mask]`: keeps the entries at `true`
positions; a length mismatch raises `IndexError` (`none`). -/
def boolMask (mask : List Bool) (xs : List α) : Option (List α) :=
  if mask.length = xs.length then
    some ((mask.zip xs).filterMap fun bx => if bx.1 then some bx.2 else none)
  else
    none

/-- Option traversal of `boolMask` for the optional `robot_seg` field. -/
def boolMaskOpt (mask : List Bool) : Option (List ℚ) → Option (Option (List ℚ))
  | none => some none
  | some xs => (boolMask mask xs).map some

/-- Per-point fields of the cloud as the pipeline carries them between
stages: `xyz`, `rgb`, and optional `robot_seg`. -/
structure PcdFields where
  xyz : List Vec3
  rgb : List Vec3
  robot_seg : Option (List ℚ)
deriving DecidableEq, Repr

/-- Lines 297-306: pop `xyzw`; when present, assert `xyz` is absent
(failure is `none`), build the mask `xyzw[:, -1] > 0.5`, apply it to every
remaining per-point field and to `xyzw[:, :-1]`, which becomes `xyz`.
When `xyzw` is absent the fields pass through, but a cloud with neither
`xyzw` nor `xyz` raises `KeyError` downstream (`none`). -/
def maskStage (p : PcdInput) : Option PcdFields :=
  match p.xyzw with
  | some xw =>
    if p.xyz.isSome then
      none
    else
      let mask := xw.map fun pt => decide (pt.2 > 0.5)
      match boolMask mask (xw.map Prod.fst), boolMask mask p.rgb,
            boolMaskOpt mask p.robot_seg with
      | some xyz', some rgb', some seg' =>
        some { xyz := xyz', rgb := rgb', robot_seg := seg' }
      | _, _, _ => none
  | none =>
    match p.xyz with
    | some xyz => some { xyz := xyz, rgb := p.rgb, robot_seg := p.robot_seg }
    | none => none

/-- Line 308: `ret['rgb'] = ret['rgb'] / 255.0`. -/
def rgbScale (f : PcdFields) : PcdFields :=
  { f with rgb := f.rgb.map (Vec3.smul (1 / 255)) }

/-- The index `i * len / num` of the `i`-th of `num` uniformly spread
sample positions over `len` points. -/
def uniformIndices (num len : ℕ) : List ℕ :=
  (List.range num).map fun i => i * len / num

/-- NumPy fancy indexing `xs[idxs]`: an out-of-range index raises
`IndexError` (`none`). -/
def selectIdx (idxs : List ℕ) (xs : List α) : Option (List α) :=
  if idxs.all fun i => i < xs.length then
    some (idxs.filterMap fun i => xs.get? i)
  else
    none

/-- Modelled from the spec: `pcd_uniform_downsample` from
`maniskill2_learn/env/observation_process.py` (not part of the sources):
"downsampling" the cloud to `num` points — one shared uniform index
selection over the cloud, applied to every per-point field. -/
def pcd_uniform_downsample (num : ℕ) (f : PcdFields) : Option PcdFields :=
  match selectIdx (uniformIndices num f.xyz.length) f.xyz,
        selectIdx (uniformIndices num f.xyz.length) f.rgb with
  | some xyz', some rgb' =>
    match f.robot_seg with
    | none => some { xyz := xyz', rgb := rgb', robot_seg := none }
    | some seg =>
      (selectIdx (uniformIndices num f.xyz.length) seg).map fun seg' =>
        { xyz := xyz', rgb := rgb', robot_seg := some seg' }
  | _, _ => none

/-- Lines 309-310: downsample unless a
`PointCloudPreprocessObsWrapper` already did. -/
def downsampleStage (cfg : ObsWrapperCfg) (f : PcdFields) : Option PcdFields :=
  if cfg.preprocessedPcd then some f else pcd_uniform_downsample cfg.n_points f

/-- Lines 318-325: the goal position taken from `extra['goal_pos']`, or
from `extra['goal_pose'][:3]` when only the pose is present. -/
def goalPosOf (p : PcdInput) : Option Vec3 :=
  match p.goal_pos with
  | some g => some g
  | none => p.goal_pose.map PoseVec.pos

/-- Lines 318-325: the goal pose, which is only set when `goal_pos` is
absent and `goal_pose` is present (the `elif` branch). -/
def goalPoseOf (p : PcdInput) : Option Pose :=
  match p.goal_pos with
  | some _ => none
  | none => p.goal_pose.map PoseVec.toPose

/-- Lines 330-340: when `n_goal_points > 0`, assert a goal position
exists (failure is `none`) and append `n_goal_points` synthetic points:
uniform noise in `[-1, 1]^3` (here the generator `noise`) scaled by
`0.01`, offset by the goal position, converted by `to_origin`; their
colors are pure green. -/
def goalInjection (cfg : ObsWrapperCfg) (noise : ℕ → Vec3)
    (to_origin : Pose) (goalPos : Option Vec3) (f : PcdFields) :
    Option PcdFields :=
  if 0 < cfg.n_goal_points then
    match goalPos with
    | none => none
    | some g =>
      some { f with
        xyz := f.xyz ++ (List.range cfg.n_goal_points.toNat).map fun i =>
          apply_pose_to_point to_origin ((Vec3.smul (1 / 100) (noise i)).add g),
        rgb := f.rgb ++ (List.range cfg.n_goal_points.toNat).map fun _ =>
          (⟨0, 1, 0⟩ : Vec3) }
  else
    some f

/-- Lines 342-366: the per-frame auxiliary 3-vectors, in order: base
position, then when present TCP position, goal position, TCP-to-goal
offset, gripper position (all mapped by `to_origin`), joint axis (rotated
only), link position. -/
def frameRelatedStates (to_origin : Pose) (p : PcdInput) : List Vec3 :=
  [apply_pose_to_point to_origin p.base_pose.pos]
  ++ (match p.tcp_pose with
      | some t => [apply_pose_to_point to_origin t.pos]
      | none => [])
  ++ (match goalPosOf p with
      | some g => [apply_pose_to_point to_origin g]
      | none => [])
  ++ (match p.tcp_pose, goalPosOf p with
      | some t, some g => [apply_pose_to_point to_origin (g.sub t.pos)]
      | _, _ => [])
  ++ (match p.gripper_pose with
      | some gp => [apply_pose_to_point to_origin gp.pos]
      | none => [])
  ++ (match p.joint_axis with
      | some ax => [to_origin.q.rotate ax]
      | none => [])
  ++ (match p.link_pos with
      | some lp => [apply_pose_to_point to_origin lp]
      | none => [])

/-- Lines 369-383: 7-float goal-related poses in the observation frame:
`to_origin * goal_pose`, then `to_origin * (goal_pose * tcp_pose.inv())`
when a TCP pose exists; empty when no goal pose was set. -/
def frameGoalRelatedPoses (to_origin : Pose) (p : PcdInput) : List (List ℚ) :=
  match goalPoseOf p with
  | none => []
  | some gp =>
    [(to_origin.comp gp).toList]
    ++ (match p.tcp_pose with
        | some t => [(to_origin.comp (gp.comp t.toPose.inv)).toList]
        | none => [])

/-- Lines 385-397: stacked homogeneous matrices mapping the observation
frame back to the base frame, then when present the TCP and goal
frames. -/
def toFrames (to_origin : Pose) (p : PcdInput) : List (List (List ℚ)) :=
  [((to_origin.comp p.base_pose.toPose).inv).to_transformation_matrix]
  ++ (match p.tcp_pose with
      | some t => [((to_origin.comp t.toPose).inv).to_transformation_matrix]
      | none => [])
  ++ (match goalPoseOf p with
      | some gp => [((to_origin.comp gp).inv).to_transformation_matrix]
      | none => [])

/-- Lines 399-412: the flat state vector: `qpos`, `qvel`, the flattened
frame-related states and goal-related poses when nonempty, then every
non-excluded `extra` value flattened. -/
def agentState (to_origin : Pose) (p : PcdInput) : List ℚ :=
  let frs := frameRelatedStates to_origin p
  let fgrp := frameGoalRelatedPoses to_origin p
  p.qpos ++ p.qvel
  ++ (if frs.length > 0 then (frs.map fun v => [v.x, v.y, v.z]).flatten else [])
  ++ (if fgrp.length > 0 then fgrp.flatten else [])
  ++ p.extraOthers.flatten

/-- The dict the point-cloud branch returns (line 415): per-point fields,
auxiliary frame states, stacked transforms, and the flat state vector.
The `frame_goal_related_poses` key is absent when the list is empty
(lines 381-383); here the empty list stands for the absent key. -/
structure PcdOut where
  xyz : List Vec3
  rgb : List Vec3
  robot_seg : Option (List ℚ)
  frame_related_states : List Vec3
  frame_goal_related_poses : List (List ℚ)
  to_frames : List (List (List ℚ))
  state : List ℚ
deriving DecidableEq, Repr

/-- Lines 271-415, the whole point-cloud branch of
`ManiSkill2_ObsWrapper.observation`: resolve the target frame, mask by
`xyzw`, scale `rgb`, downsample, convert `xyz` into the frame, inject
goal points, and assemble the auxiliary outputs. `noise` supplies the
random draws of line 334. -/
def observationPointcloud (cfg : ObsWrapperCfg) (noise : ℕ → Vec3)
    (p : PcdInput) : Option PcdOut :=
  match resolveFrame cfg p with
  | none => none
  | some to_origin =>
    match maskStage p with
    | none => none
    | some masked =>
      match downsampleStage cfg (rgbScale masked) with
      | none => none
      | some ds =>
        match goalInjection cfg noise to_origin (goalPosOf p)
            { ds with xyz := apply_pose_to_points to_origin ds.xyz } with
        | none => none
        | some fin =>
          some { xyz := fin.xyz,
                 rgb := fin.rgb,
                 robot_seg := fin.robot_seg,
                 frame_related_states := frameRelatedStates to_origin p,
                 frame_goal_related_poses := frameGoalRelatedPoses to_origin p,
                 to_frames := toFrames to_origin p,
                 state := agentState to_origin p }

/-- An observation as handed to `ManiSkill2_ObsWrapper.observation`:
either a generic value or the typed point-cloud payload. -/
inductive ObsIn where
  | plain (v : Val)
  | pcd (p : PcdInput)
deriving DecidableEq, Repr

/-- What `ManiSkill2_ObsWrapper.observation` returns: the input untouched
(modes `state` and unknown, lines 220-221 and 427) or the processed
point cloud. -/
inductive ObsOut where
  | passthrough (o : ObsIn)
  | pcdOut (o : PcdOut)
deriving DecidableEq, Repr

/-- `ManiSkill2_ObsWrapper.observation` (lines 210-427) on the modes this
development covers: mode `state` returns the observation unchanged; mode
`pointcloud` runs the point-cloud branch (an observation without the
point-cloud structure raises `KeyError`); any unknown mode falls through
to line 427 and returns the observation unchanged. -/
def ManiSkill2_ObsWrapper.observation (cfg : ObsWrapperCfg)
    (noise : ℕ → Vec3) (obs : ObsIn) : Option ObsOut :=
  match cfg.obs_mode with
  | .state => some (.passthrough obs)
  | .pointcloud =>
    match obs with
    | .pcd p => (observationPointcloud cfg noise p).map .pcdOut
    | .plain _ => none
  | .otherMode => some (.passthrough obs)

/-- `ManiSkill2_ObsWrapper.step` (lines 201-205): the wrapped step result
with `done` forced to `False` when `ignore_dones` was set. -/
def ManiSkill2_ObsWrapper.step (cfg : ObsWrapperCfg) (inner : StepResult) :
    StepResult :=
  if cfg.ignore_dones then { inner with done := false } else inner

/-! ## Claims about ExtendedEnv and the step/mode plumbing -/

/-- C3: constructing `ExtendedEnv` with a non-positive `reward_scale`
fails the assertion, and any positive `reward_scale` constructs the
wrapper (with the documented stored fields). -/
theorem extendedEnv_init_reward_scale_validation (s : ℚ) (u d : Bool) :
    (0 < s → ExtendedEnv.init s u d =
      .ok { is_discrete := d, is_cost := if u then -1 else 1,
            reward_scale := s * (if u then -1 else 1) }) ∧
    (¬ 0 < s → ExtendedEnv.init s u d =
      .error "Reward scale should be positive!") := by
  constructor
  · intro hs
    simp [ExtendedEnv.init, hs]
  · intro hs
    simp [ExtendedEnv.init, hs]

/-- Witness for C3 at `reward_scale = 1` and `reward_scale = 0`. -/
theorem extendedEnv_init_reward_scale_validation_witness :
    ExtendedEnv.init 1 false true =
      .ok { is_discrete := true, is_cost := 1, reward_scale := 1 * 1 } ∧
    ExtendedEnv.init 0 false true =
      .error "Reward scale should be positive!" :=
  ⟨(extendedEnv_init_reward_scale_validation 1 false true).1 (by norm_num),
   (extendedEnv_init_reward_scale_validation 0 false true).2 (by norm_num)⟩

/-- C4: with a discrete action space, `_process_action` turns a
one-element array into the integer index it contains, and fails the
`action.size == 1` assertion on any longer array. -/
theorem processAction_discrete_array (e : ExtendedEnv)
    (h : e.is_discrete = true) (xs : List ℚ) (x : ℚ) :
    (xs = [x] → e._process_action (.arr xs) = .ok (.intAct (pyInt x))) ∧
    (1 < xs.length → e._process_action (.arr xs) =
      .error "Dim of discrete action should be 1") := by
  constructor
  · intro hx
    subst hx
    simp [ExtendedEnv._process_action, h]
  · intro hlen
    match xs, hlen with
    | x₀ :: x₁ :: rest, _ =>
      simp [ExtendedEnv._process_action, h]

/-- Witness for C4 on the arrays `[5/2]` and `[1, 2]`. -/
theorem processAction_discrete_array_witness :
    (ExtendedEnv.mk true 1 1)._process_action (.arr [5/2]) =
      .ok (.intAct (pyInt (5/2))) ∧
    (ExtendedEnv.mk true 1 1)._process_action (.arr [1, 2]) =
      .error "Dim of discrete action should be 1" :=
  ⟨(processAction_discrete_array (ExtendedEnv.mk true 1 1) rfl [5/2] (5/2)).1 rfl,
   (processAction_discrete_array (ExtendedEnv.mk true 1 1) rfl [1, 2] 0).2
     (by norm_num)⟩

/-- C5: the reward `ExtendedEnv.step` returns is the wrapped
environment's reward times the constructor's `reward_scale`, with the
sign flipped exactly when `use_cost` was set. -/
theorem extendedEnv_step_reward_scaling (s : ℚ) (u d : Bool)
    (inner : ProcessedAction → StepResult) (action : PyAction)
    (e : ExtendedEnv) (a : ProcessedAction) (out : StepResult)
    (he : ExtendedEnv.init s u d = .ok e)
    (ha : e._process_action action = .ok a)
    (hstep : e.step inner action = .ok out) :
    out.reward = (inner a).reward * s * (if u then -1 else 1) := by
  unfold ExtendedEnv.init at he
  split at he
  · rw [ExtendedEnv.step, ha] at hstep
    cases hstep
    cases he
    simp only
    ring
  · cases he

/-- Witness for C5: scale `2`, `use_cost` true, inner reward `3`;
the returned reward is `3 * 2 * (-1)`. -/
theorem extendedEnv_step_reward_scaling_witness :
    (StepResult.mk (.int 0) (3 * (2 * -1)) false
        (.dict (.cons "TimeLimit.truncated" (.bool false) .nil))).reward =
      (StepResult.mk (.int 0) 3 false (.dict .nil)).reward * 2 *
        (if true then -1 else 1) :=
  extendedEnv_step_reward_scaling 2 true false
    (fun _ => StepResult.mk (.int 0) 3 false (.dict .nil)) (.num 1)
    (ExtendedEnv.mk false (-1) (2 * -1)) (.numAct 1)
    (StepResult.mk (.int 0) (3 * (2 * -1)) false
      (.dict (.cons "TimeLimit.truncated" (.bool false) .nil)))
    (by norm_num [ExtendedEnv.init])
    rfl
    (by norm_num [ExtendedEnv.step, ExtendedEnv._process_action,
      ensureTruncated, Fields.lookup, Fields.append, Val.f64_to_f32,
      Fields.f64_to_f32])

/-- C9: with `ignore_dones` set, the done flag of
`ManiSkill2_ObsWrapper.step` is `False` whatever the wrapped environment
reported. -/
theorem obsWrapper_step_ignore_dones (cfg : ObsWrapperCfg)
    (inner : StepResult) (h : cfg.ignore_dones = true) :
    (ManiSkill2_ObsWrapper.step cfg inner).done = false := by
  simp [ManiSkill2_ObsWrapper.step, h]

/-- Witness for C9 with a wrapped step that reported done. -/
theorem obsWrapper_step_ignore_dones_witness :
    (ManiSkill2_ObsWrapper.step
      (ObsWrapperCfg.mk .state 0 0 "base" true false)
      (StepResult.mk (.int 0) 0 true (.dict .nil))).done = false :=
  obsWrapper_step_ignore_dones
    (ObsWrapperCfg.mk .state 0 0 "base" true false)
    (StepResult.mk (.int 0) 0 true (.dict .nil)) rfl

/-- C10: in observation mode `state`, `ManiSkill2_ObsWrapper.observation`
returns its input unchanged. -/
theorem obsWrapper_observation_state_identity (cfg : ObsWrapperCfg)
    (noise : ℕ → Vec3) (obs : ObsIn) (h : cfg.obs_mode = .state) :
    ManiSkill2_ObsWrapper.observation cfg noise obs =
      some (.passthrough obs) := by
  simp [ManiSkill2_ObsWrapper.observation, h]

/-- Witness for C10 on a concrete state observation. -/
theorem obsWrapper_observation_state_identity_witness :
    ManiSkill2_ObsWrapper.observation
      (ObsWrapperCfg.mk .state 0 0 "base" false false)
      (fun _ => Vec3.mk 0 0 0) (.plain (.farr .f32 [1, 2])) =
      some (.passthrough (.plain (.farr .f32 [1, 2]))) :=
  obsWrapper_observation_state_identity
    (ObsWrapperCfg.mk .state 0 0 "base" false false)
    (fun _ => Vec3.mk 0 0 0) (.plain (.farr .f32 [1, 2])) rfl

/-- C6: in pointcloud mode with an `obs_frame` that is none of `base`,
`world`, `ee`, processing any observation hits `exit(0)` and no
observation is returned. -/
theorem obsWrapper_observation_unknown_frame (cfg : ObsWrapperCfg)
    (noise : ℕ → Vec3) (obs : ObsIn) (hmode : cfg.obs_mode = .pointcloud)
    (hb : cfg.obs_frame ≠ "base") (hw : cfg.obs_frame ≠ "world")
    (he : cfg.obs_frame ≠ "ee") :
    ManiSkill2_ObsWrapper.observation cfg noise obs = none := by
  rw [ManiSkill2_ObsWrapper.observation.eq_def, hmode]
  cases obs with
  | plain v => rfl
  | pcd p =>
    simp [observationPointcloud, resolveFrame, hb, hw, he]

/-- Witness for C6 with `obs_frame = "hand"`. -/
theorem obsWrapper_observation_unknown_frame_witness :
    ManiSkill2_ObsWrapper.observation
      (ObsWrapperCfg.mk .pointcloud 1200 (-1) "hand" false false)
      (fun _ => Vec3.mk 0 0 0) (.plain (.int 0)) = none :=
  obsWrapper_observation_unknown_frame
    (ObsWrapperCfg.mk .pointcloud 1200 (-1) "hand" false false)
    (fun _ => Vec3.mk 0 0 0) (.plain (.int 0)) rfl
    (by decide) (by decide) (by decide)

/-! ## Float precision (C2) -/

mutual

/-- After the coercion no value of dtype float64 remains. -/
theorem val_f64_to_f32_hasF64 : ∀ v : Val, v.f64_to_f32.hasF64 = false
  | .float dt x => by cases dt <;> rfl
  | .farr dt xs => by cases dt <;> rfl
  | .int _ => rfl
  | .bool _ => rfl
  | .str _ => rfl
  | .dict fs => by
    simp [Val.f64_to_f32, Val.hasF64, fields_f64_to_f32_hasF64 fs]

/-- After the coercion no field of dtype float64 remains. -/
theorem fields_f64_to_f32_hasF64 : ∀ fs : Fields, fs.f64_to_f32.hasF64 = false
  | .nil => rfl
  | .cons _ v rest => by
    simp [Fields.f64_to_f32, Fields.hasF64, val_f64_to_f32_hasF64 v,
      fields_f64_to_f32_hasF64 rest]

end

/-- C2 counterexample: a wrapped observation carrying a float16 field
(the dtype the rgbd branch itself gives depth at line 263) still carries
a non-float32 floating field after `ExtendedEnv.reset`, so not every
floating-point field is float32. -/
theorem extendedEnv_reset_not_all_f32 :
    Val.allF32 (ExtendedEnv.reset
      (.dict (.cons "depth" (.float .f16 1) .nil))) = false := by
  decide

/-- C2 amended: after `ExtendedEnv.reset` and `ExtendedEnv.step` no
float64 field remains in the observation or the info — float64 is
coerced to float32 uniformly, while other float dtypes (such as float16)
pass through unchanged. -/
theorem extendedEnv_no_f64_after_reset_step (obs : Val)
    (e : ExtendedEnv) (inner : ProcessedAction → StepResult)
    (action : PyAction) (out : StepResult)
    (hstep : e.step inner action = .ok out) :
    (ExtendedEnv.reset obs).hasF64 = false ∧
    out.obs.hasF64 = false ∧ out.info.hasF64 = false := by
  refine ⟨val_f64_to_f32_hasF64 obs, ?_, ?_⟩ <;>
  · rw [ExtendedEnv.step] at hstep
    cases ha : e._process_action action with
    | error msg => rw [ha] at hstep; cases hstep
    | ok a =>
      rw [ha] at hstep
      cases hstep
      simp [val_f64_to_f32_hasF64]

/-- Witness for C2's amended statement on a float64-laden observation. -/
theorem extendedEnv_no_f64_after_reset_step_witness :
    (ExtendedEnv.reset (.farr .f64 [1])).hasF64 = false ∧
    (StepResult.mk (.farr .f32 [1]) 0 false
      (.dict (.cons "TimeLimit.truncated" (.bool false) .nil))).obs.hasF64 =
        false ∧
    (StepResult.mk (.farr .f32 [1]) 0 false
      (.dict (.cons "TimeLimit.truncated" (.bool false) .nil))).info.hasF64 =
        false :=
  extendedEnv_no_f64_after_reset_step (.farr .f64 [1])
    (ExtendedEnv.mk false 1 1)
    (fun _ => StepResult.mk (.farr .f64 [1]) 0 false (.dict .nil))
    (.num 0)
    (StepResult.mk (.farr .f32 [1]) 0 false
      (.dict (.cons "TimeLimit.truncated" (.bool false) .nil)))
    (by norm_num [ExtendedEnv.step, ExtendedEnv._process_action,
      ensureTruncated, Fields.lookup, Fields.append, Val.f64_to_f32,
      Fields.f64_to_f32])

/-! ## TimeLimit.truncated defaulting (C8) -/

/-- Lookup commutes with the float coercion on dict fields. -/
theorem fields_f64_to_f32_lookup (k : String) :
    ∀ fs : Fields, fs.f64_to_f32.lookup k = (fs.lookup k).map Val.f64_to_f32
  | .nil => rfl
  | .cons k' v rest => by
    by_cases h : k' = k <;>
    simp [Fields.f64_to_f32, Fields.lookup, h, fields_f64_to_f32_lookup k rest]

/-- Appending a fresh key makes it found. -/
theorem fields_append_lookup (k : String) (v : Val) :
    ∀ fs : Fields, fs.lookup k = none → (fs.append k v).lookup k = some v
  | .nil => by intro _; simp [Fields.append, Fields.lookup]
  | .cons k' v' rest => by
    intro h
    by_cases hk : k' = k
    · simp [Fields.lookup, hk] at h
    · simp [Fields.append, Fields.lookup, hk] at h ⊢
      exact fields_append_lookup k v rest h

/-- The dict `ensureTruncated` returns always resolves the truncation
key, to the old entry when present and to `False` otherwise. -/
theorem ensureTruncated_lookup (fs : Fields) :
    (ensureTruncated (.dict fs)).lookupKey "TimeLimit.truncated" =
      some ((fs.lookup "TimeLimit.truncated").getD (.bool false)) := by
  rw [ensureTruncated]
  cases h : fs.lookup "TimeLimit.truncated" with
  | none => simp [h, Val.lookupKey, fields_append_lookup _ _ fs h]
  | some v => simp [h, Val.lookupKey]

/-- C8: after a successful `ExtendedEnv.step` whose wrapped info is a
dict, the returned info contains `TimeLimit.truncated`; it resolves to
the (float-coerced) old entry when the wrapped environment set one —
in particular to the very same value for the booleans the key holds —
and to `False` otherwise. -/
theorem extendedEnv_step_truncated_key (e : ExtendedEnv)
    (inner : ProcessedAction → StepResult) (action : PyAction)
    (a : ProcessedAction) (fs : Fields) (out : StepResult) (b : Bool)
    (ha : e._process_action action = .ok a)
    (hinfo : (inner a).info = .dict fs)
    (hstep : e.step inner action = .ok out) :
    (out.info.lookupKey "TimeLimit.truncated").isSome = true ∧
    out.info.lookupKey "TimeLimit.truncated" =
      some ((fs.lookup "TimeLimit.truncated").getD (.bool false)).f64_to_f32 ∧
    (fs.lookup "TimeLimit.truncated" = some (.bool b) →
      out.info.lookupKey "TimeLimit.truncated" = some (.bool b)) ∧
    (fs.lookup "TimeLimit.truncated" = none →
      out.info.lookupKey "TimeLimit.truncated" = some (.bool false)) := by
  rw [ExtendedEnv.step, ha] at hstep
  cases hstep
  simp only [hinfo]
  have hbase :
      ((ensureTruncated (.dict fs)).f64_to_f32).lookupKey
        "TimeLimit.truncated" =
        some ((fs.lookup "TimeLimit.truncated").getD (.bool false)).f64_to_f32 := by
    have h1 := ensureTruncated_lookup fs
    cases hens : ensureTruncated (.dict fs) with
    | dict fs' =>
      rw [hens, Val.lookupKey] at h1
      simp [Val.f64_to_f32, Val.lookupKey, fields_f64_to_f32_lookup, h1]
    | float dt x => rw [ensureTruncated] at hens; split at hens <;> cases hens
    | farr dt xs => rw [ensureTruncated] at hens; split at hens <;> cases hens
    | int n => rw [ensureTruncated] at hens; split at hens <;> cases hens
    | bool b => rw [ensureTruncated] at hens; split at hens <;> cases hens
    | str s => rw [ensureTruncated] at hens; split at hens <;> cases hens
  refine ⟨by simp [hbase], hbase, ?_, ?_⟩
  · intro hold
    rw [hbase, hold]
    rfl
  · intro hold
    rw [hbase, hold]
    rfl

/-- Witness for C8: an info without the key gains it with value
`False`. -/
theorem extendedEnv_step_truncated_key_witness :
    ((StepResult.mk (.int 0) 0 false
      (.dict (.cons "x" (.bool true)
        (.cons "TimeLimit.truncated" (.bool false) .nil)))).info.lookupKey
          "TimeLimit.truncated").isSome = true ∧
    (StepResult.mk (.int 0) 0 false
      (.dict (.cons "x" (.bool true)
        (.cons "TimeLimit.truncated" (.bool false) .nil)))).info.lookupKey
          "TimeLimit.truncated" =
      some (((Fields.cons "x" (.bool true) .nil).lookup
        "TimeLimit.truncated").getD (.bool false)).f64_to_f32 ∧
    ((Fields.cons "x" (.bool true) .nil).lookup "TimeLimit.truncated" =
        some (.bool false) →
      (StepResult.mk (.int 0) 0 false
        (.dict (.cons "x" (.bool true)
          (.cons "TimeLimit.truncated" (.bool false) .nil)))).info.lookupKey
            "TimeLimit.truncated" = some (.bool false)) ∧
    ((Fields.cons "x" (.bool true) .nil).lookup "TimeLimit.truncated" = none →
      (StepResult.mk (.int 0) 0 false
        (.dict (.cons "x" (.bool true)
          (.cons "TimeLimit.truncated" (.bool false) .nil)))).info.lookupKey
            "TimeLimit.truncated" = some (.bool false)) :=
  extendedEnv_step_truncated_key (ExtendedEnv.mk false 1 1)
    (fun _ => StepResult.mk (.int 0) 0 false
      (.dict (.cons "x" (.bool true) .nil)))
    (.num 0) (.numAct 0) (Fields.cons "x" (.bool true) .nil)
    (StepResult.mk (.int 0) 0 false
      (.dict (.cons "x" (.bool true)
        (.cons "TimeLimit.truncated" (.bool false) .nil))))
    false rfl rfl
    (by
      norm_num [ExtendedEnv.step, ExtendedEnv._process_action,
        ensureTruncated, Fields.lookup, Fields.append, Val.f64_to_f32,
        Fields.f64_to_f32]
      decide)

/-! ## Point-cloud masking (C7) -/

/-- Masking a mapped list with a mapped mask filters the underlying
list. -/
theorem zipMask_map_map (f : α → Bool) (g : α → β) :
    ∀ xs : List α,
      ((xs.map f).zip (xs.map g)).filterMap
          (fun bx => if bx.1 then some bx.2 else none) =
        (xs.filter f).map g
  | [] => rfl
  | a :: rest => by
    cases hfa : f a <;>
      simp [List.filter_cons, hfa, zipMask_map_map f g rest]

/-- Masking an equal-length companion list keeps exactly the entries
zipped with a `true` mask bit. -/
theorem zipMask_zip (f : α → Bool) :
    ∀ (xs : List α) (ys : List β), xs.length = ys.length →
      ((xs.map f).zip ys).filterMap
          (fun bx => if bx.1 then some bx.2 else none) =
        ((xs.zip ys).filter fun z => f z.1).map Prod.snd
  | [], [] => by simp
  | [], _ :: _ => by intro h; cases h
  | _ :: _, [] => by intro h; cases h
  | x :: xs, y :: ys => by
    intro h
    cases hfx : f x <;>
      simp [List.filter_cons, hfx, zipMask_zip f xs ys (by simpa using h)]

/-- `boolMask` on two images of the same list. -/
theorem boolMask_map_map (f : α → Bool) (g : α → β) (xs : List α) :
    boolMask (xs.map f) (xs.map g) = some ((xs.filter f).map g) := by
  rw [boolMask, if_pos (by simp), zipMask_map_map]

/-- `boolMask` with a mapped mask on an equal-length companion list. -/
theorem boolMask_of_map (f : α → Bool) (xs : List α) (ys : List β)
    (h : ys.length = xs.length) :
    boolMask (xs.map f) ys =
      some (((xs.zip ys).filter fun z => f z.1).map Prod.snd) := by
  rw [boolMask, if_pos (by simp [h]), zipMask_zip f xs ys h.symm]

/-- C7: when the cloud carries `xyzw`, `maskStage` removes every point
whose `w` component is not greater than `0.5` from every per-point field
— the surviving `xyz` are exactly the first three components of the
`xyzw` rows with `w > 0.5`, and `rgb`/`robot_seg` keep exactly the
entries paired with such rows, in order. The pipeline
(`observationPointcloud`) converts `xyz` into the target frame only
after this stage. -/
theorem maskStage_keeps_only_w_gt_half (p : PcdInput)
    (xw : List (Vec3 × ℚ)) (hxw : p.xyzw = some xw) (hxyz : p.xyz = none)
    (hrgb : p.rgb.length = xw.length)
    (hseg : p.robot_seg.all (fun s => s.length = xw.length) = true) :
    maskStage p = some
      { xyz := (xw.filter fun pt => decide (pt.2 > 0.5)).map Prod.fst,
        rgb := ((xw.zip p.rgb).filter fun z =>
          decide (z.1.2 > 0.5)).map Prod.snd,
        robot_seg := p.robot_seg.map fun s =>
          ((xw.zip s).filter fun z => decide (z.1.2 > 0.5)).map Prod.snd } := by
  rw [maskStage.eq_def, hxw, hxyz]
  cases hs : p.robot_seg with
  | none =>
    simp only [Option.isSome_none, Bool.false_eq_true, if_false, hs,
      boolMaskOpt, boolMask_map_map, boolMask_of_map _ _ _ hrgb,
      Option.map_none']
  | some s =>
    rw [hs] at hseg
    have hslen : s.length = xw.length := by simpa using hseg
    simp only [Option.isSome_none, Bool.false_eq_true, if_false, hs,
      boolMaskOpt, boolMask_map_map, boolMask_of_map _ _ _ hrgb,
      boolMask_of_map _ _ _ hslen, Option.map_some']

/-- Witness for C7 on a three-point cloud where the last point has
`w = 0`. -/
theorem maskStage_keeps_only_w_gt_half_witness :
    maskStage
      (PcdInput.mk
        (some [(Vec3.mk 0 0 0, 1), (Vec3.mk 1 0 0, 1), (Vec3.mk 2 0 0, 0)])
        none
        [Vec3.mk 0 0 0, Vec3.mk 255 0 0, Vec3.mk 0 255 0]
        (some [1, 1, 0])
        (PoseVec.mk 0 0 0 1 0 0 0) [] [] none none none none none none []) =
      some
        { xyz := (([(Vec3.mk 0 0 0, (1 : ℚ)), (Vec3.mk 1 0 0, 1),
              (Vec3.mk 2 0 0, 0)].filter fun pt =>
                decide (pt.2 > 0.5)).map Prod.fst),
          rgb := ((([(Vec3.mk 0 0 0, (1 : ℚ)), (Vec3.mk 1 0 0, 1),
              (Vec3.mk 2 0 0, 0)].zip
                [Vec3.mk 0 0 0, Vec3.mk 255 0 0, Vec3.mk 0 255 0]).filter
                  fun z => decide (z.1.2 > 0.5)).map Prod.snd),
          robot_seg := (some [(1 : ℚ), 1, 0]).map fun s =>
            ((([(Vec3.mk 0 0 0, (1 : ℚ)), (Vec3.mk 1 0 0, 1),
              (Vec3.mk 2 0 0, 0)]).zip s).filter
                fun z => decide (z.1.2 > 0.5)).map Prod.snd } :=
  maskStage_keeps_only_w_gt_half
    (PcdInput.mk
      (some [(Vec3.mk 0 0 0, 1), (Vec3.mk 1 0 0, 1), (Vec3.mk 2 0 0, 0)])
      none
      [Vec3.mk 0 0 0, Vec3.mk 255 0 0, Vec3.mk 0 255 0]
      (some [1, 1, 0])
      (PoseVec.mk 0 0 0 1 0 0 0) [] [] none none none none none none [])
    [(Vec3.mk 0 0 0, 1), (Vec3.mk 1 0 0, 1), (Vec3.mk 2 0 0, 0)]
    rfl rfl rfl (by decide)


/-! ## Point-cloud output count (C1) -/

/-- Indexing with in-range indices yields one entry per index. -/
theorem filterMap_get_length (xs : List α) :
    ∀ idxs : List ℕ, (∀ i ∈ idxs, i < xs.length) →
      (idxs.filterMap fun i => xs.get? i).length = idxs.length
  | [] => by intro _; rfl
  | i :: rest => fun h => by
    have hi : i < xs.length := h i (List.mem_cons_self i rest)
    have ha : xs.get? i = some (xs.get ⟨i, hi⟩) := List.get?_eq_get hi
    simp only [List.filterMap_cons, ha, List.length_cons,
      filterMap_get_length xs rest fun j hj => h j (List.mem_cons_of_mem i hj)]

/-- `selectIdx` only succeeds with one entry per requested index. -/
theorem selectIdx_some_length {idxs : List ℕ} {xs l : List α}
    (h : selectIdx idxs xs = some l) : l.length = idxs.length := by
  rw [selectIdx] at h
  split at h
  · cases h
    rename_i hall
    refine filterMap_get_length xs idxs fun i hi => ?_
    simpa using List.all_eq_true.mp hall i hi
  · cases h

/-- A successful downsample returns exactly `num` points in `xyz` and
`rgb`. -/
theorem pcd_uniform_downsample_lengths {num : ℕ} {f g : PcdFields}
    (h : pcd_uniform_downsample num f = some g) :
    g.xyz.length = num ∧ g.rgb.length = num := by
  unfold pcd_uniform_downsample at h
  split at h
  · rename_i xyz' rgb' hx hr
    have hxl : xyz'.length = num := by
      rw [selectIdx_some_length hx]; simp [uniformIndices]
    have hrl : rgb'.length = num := by
      rw [selectIdx_some_length hr]; simp [uniformIndices]
    split at h
    · cases h
      exact ⟨hxl, hrl⟩
    · rw [Option.map_eq_some'] at h
      obtain ⟨seg', hs, hg⟩ := h
      subst hg
      exact ⟨hxl, hrl⟩
  · cases h

/-- A successful goal injection appends `n_goal_points` points to `xyz`
and `rgb` when `n_goal_points > 0` and nothing otherwise. -/
theorem goalInjection_lengths {cfg : ObsWrapperCfg} {noise : ℕ → Vec3}
    {to_origin : Pose} {goalPos : Option Vec3} {f fin : PcdFields}
    (h : goalInjection cfg noise to_origin goalPos f = some fin) :
    fin.xyz.length = f.xyz.length +
      (if 0 < cfg.n_goal_points then cfg.n_goal_points.toNat else 0) ∧
    fin.rgb.length = f.rgb.length +
      (if 0 < cfg.n_goal_points then cfg.n_goal_points.toNat else 0) := by
  unfold goalInjection at h
  split at h
  · rename_i hpos
    split at h
    · cases h
    · cases h
      simp [hpos]
  · rename_i hpos
    cases h
    simp [hpos]

/-- C1: whenever the wrapper's own downsampling is active (no upstream
preprocess wrapper) and the point-cloud observation goes through, the
returned `xyz` and `rgb` both hold exactly `n_points` points plus
`n_goal_points` injected goal points when `n_goal_points > 0`, else
exactly `n_points`. -/
theorem observation_pointcloud_count (cfg : ObsWrapperCfg)
    (noise : ℕ → Vec3) (p : PcdInput) (out : PcdOut)
    (hpre : cfg.preprocessedPcd = false)
    (hobs : ManiSkill2_ObsWrapper.observation cfg noise (.pcd p) =
      some (.pcdOut out)) :
    out.xyz.length = cfg.n_points +
      (if 0 < cfg.n_goal_points then cfg.n_goal_points.toNat else 0) ∧
    out.rgb.length = cfg.n_points +
      (if 0 < cfg.n_goal_points then cfg.n_goal_points.toNat else 0) := by
  rw [ManiSkill2_ObsWrapper.observation.eq_def] at hobs
  cases hmode : cfg.obs_mode with
  | state => simp only [hmode] at hobs; simp at hobs
  | otherMode => simp only [hmode] at hobs; simp at hobs
  | pointcloud =>
    simp only [hmode] at hobs
    rw [Option.map_eq_some'] at hobs
    obtain ⟨o, hpc, hoeq⟩ := hobs
    injection hoeq with ho
    subst ho
    rw [observationPointcloud.eq_def] at hpc
    split at hpc
    · cases hpc
    · rename_i to_origin hfr
      split at hpc
      · cases hpc
      · rename_i masked hms
        split at hpc
        · cases hpc
        · rename_i ds hds
          split at hpc
          · cases hpc
          · rename_i fin hgi
            cases hpc
            rw [downsampleStage, hpre] at hds
            simp only [Bool.false_eq_true, if_false] at hds
            have hdl := pcd_uniform_downsample_lengths hds
            have hgl := goalInjection_lengths hgi
            simp only [apply_pose_to_points, List.length_map] at hgl
            exact ⟨by rw [hgl.1, hdl.1], by rw [hgl.2, hdl.2]⟩

/-- Witness for C1: two raw points downsampled to one plus one injected
goal point, so `xyz` and `rgb` both end with `1 + 1` entries. -/
theorem observation_pointcloud_count_witness :
    (PcdOut.mk
        [Vec3.mk 0 0 0, Vec3.mk 0 0 0]
        [Vec3.mk 0 0 0, Vec3.mk 0 1 0]
        none
        [Vec3.mk 0 0 0, Vec3.mk 0 0 0]
        []
        [[[1, 0, 0, 0], [0, 1, 0, 0], [0, 0, 1, 0], [0, 0, 0, 1]]]
        [0, 0, 0, 0, 0, 0]).xyz.length =
      (ObsWrapperCfg.mk .pointcloud 1 1 "base" false false).n_points +
        (if 0 < (ObsWrapperCfg.mk .pointcloud 1 1 "base" false
            false).n_goal_points then
          (ObsWrapperCfg.mk .pointcloud 1 1 "base" false
            false).n_goal_points.toNat
        else 0) ∧
    (PcdOut.mk
        [Vec3.mk 0 0 0, Vec3.mk 0 0 0]
        [Vec3.mk 0 0 0, Vec3.mk 0 1 0]
        none
        [Vec3.mk 0 0 0, Vec3.mk 0 0 0]
        []
        [[[1, 0, 0, 0], [0, 1, 0, 0], [0, 0, 1, 0], [0, 0, 0, 1]]]
        [0, 0, 0, 0, 0, 0]).rgb.length =
      (ObsWrapperCfg.mk .pointcloud 1 1 "base" false false).n_points +
        (if 0 < (ObsWrapperCfg.mk .pointcloud 1 1 "base" false
            false).n_goal_points then
          (ObsWrapperCfg.mk .pointcloud 1 1 "base" false
            false).n_goal_points.toNat
        else 0) := by
  have hobs : ManiSkill2_ObsWrapper.observation
      (ObsWrapperCfg.mk .pointcloud 1 1 "base" false false)
      (fun _ => Vec3.mk 0 0 0)
      (.pcd (PcdInput.mk
        none
        (some [Vec3.mk 0 0 0, Vec3.mk 0 0 0])
        [Vec3.mk 0 0 0, Vec3.mk 0 0 0]
        none
        (PoseVec.mk 0 0 0 1 0 0 0) [] [] none (some (Vec3.mk 0 0 0)) none
        none none none [])) =
      some (.pcdOut (PcdOut.mk
        [Vec3.mk 0 0 0, Vec3.mk 0 0 0]
        [Vec3.mk 0 0 0, Vec3.mk 0 1 0]
        none
        [Vec3.mk 0 0 0, Vec3.mk 0 0 0]
        []
        [[[1, 0, 0, 0], [0, 1, 0, 0], [0, 0, 1, 0], [0, 0, 0, 1]]]
        [0, 0, 0, 0, 0, 0])) := by
    norm_num [ManiSkill2_ObsWrapper.observation, observationPointcloud,
      resolveFrame, maskStage, boolMask, boolMaskOpt, rgbScale,
      downsampleStage, pcd_uniform_downsample, uniformIndices, selectIdx,
      goalInjection, goalPosOf, goalPoseOf, apply_pose_to_points,
      apply_pose_to_point, frameRelatedStates, frameGoalRelatedPoses,
      toFrames, agentState, PoseVec.toPose, PoseVec.pos, Pose.inv,
      Pose.comp, Pose.to_transformation_matrix, Pose.toList, Quat.conj,
      Quat.rotate, Quat.mul, Quat.toMatrix, Vec3.add, Vec3.sub, Vec3.smul,
      Vec3.cross, List.range_succ, List.filterMap_cons, List.filterMap_nil,
      List.getElem?_cons_zero, List.getElem?_cons_succ]
  exact observation_pointcloud_count
    (ObsWrapperCfg.mk .pointcloud 1 1 "base" false false)
    (fun _ => Vec3.mk 0 0 0)
    (PcdInput.mk
      none
      (some [Vec3.mk 0 0 0, Vec3.mk 0 0 0])
      [Vec3.mk 0 0 0, Vec3.mk 0 0 0]
      none
      (PoseVec.mk 0 0 0 1 0 0 0) [] [] none (some (Vec3.mk 0 0 0)) none
      none none none [])
    (PcdOut.mk
      [Vec3.mk 0 0 0, Vec3.mk 0 0 0]
      [Vec3.mk 0 0 0, Vec3.mk 0 1 0]
      none
      [Vec3.mk 0 0 0, Vec3.mk 0 0 0]
      []
      [[[1, 0, 0, 0], [0, 1, 0, 0], [0, 0, 1, 0], [0, 0, 0, 1]]]
      [0, 0, 0, 0, 0, 0])
    rfl hobs
